import Mathlib

/-!
Verification of the caching and data-synchronization engine of the
tuikit.dev dashboard (hooks `useGitHubStats` and `useGitHubStatsCache`).

The TypeScript sources are shallowly embedded: pure helper functions become
Lean functions on `List Char` (JS strings), the fetch pipeline becomes a
function from the outcomes of its sub-requests (each an `Except`) to the
assembled result, and the two React hooks become explicit state machines
driven by event lists (mount, timer fire, manual refresh, fetch
resolution).  Machine timestamps are `Nat` epoch milliseconds.
-/

namespace TUIkit

/-! ### String helpers (translated from `useGitHubStats.ts`) -/

/-- Decimal digits to a number, as JS `Number` on a digit string. -/
def digitsToNat (ds : List Char) : Nat :=
  ds.foldl (fun n c => n * 10 + (c.toNat - 48)) 0

/-- Match a literal pattern at the head of a character list; on success
return the remaining characters. -/
def matchLit : List Char → List Char → Option (List Char)
  | [], l => some l
  | _, [] => none
  | p :: ps, c :: cs => if p = c then matchLit ps cs else none

/-- JS `String.prototype.includes`: does the pattern occur anywhere in the
text?  (Empty pattern occurs everywhere, as in JS.) -/
def hasLit (pat : List Char) : List Char → Bool
  | [] => (matchLit pat []).isSome
  | c :: cs => (matchLit pat (c :: cs)).isSome || hasLit pat cs

/-- Attempt to match the regex `page=(\d+)>; rel="last"` at the head of the
list: the literal `page=`, then one or more digits (greedy — the next
pattern character `>` is not a digit, so no backtracking is possible), then
the literal `>; rel="last"`.  Returns the captured number. -/
def pageLastAt (l : List Char) : Option Nat :=
  match matchLit ("page=".toList) l with
  | none => none
  | some r1 =>
    let ds := r1.takeWhile Char.isDigit
    let r2 := r1.dropWhile Char.isDigit
    if ds.isEmpty then none
    else
      match matchLit (">; rel=\"last\"".toList) r2 with
      | none => none
      | some _ => some (digitsToNat ds)

/-- Scan for the first match of `page=(\d+)>; rel="last"`, as the JS regex
engine does: try each start position left to right. -/
def scanPageLast : List Char → Option Nat
  | [] => none
  | c :: rest =>
    match pageLastAt (c :: rest) with
    | some n => some n
    | none => scanPageLast rest

/-- `extractLastPage` from `useGitHubStats.ts`: read the last page number
from a GitHub `Link` header (`none` models an absent header); `0` when the
header is absent or does not match the pattern. -/
def extractLastPage (link : Option (List Char)) : Nat :=
  match link with
  | none => 0
  | some s => (scanPageLast s).getD 0

/-- JS `String.prototype.indexOf` for a single character: index of the
first occurrence, `none` standing for JS's `-1`. -/
def indexOfChar (c : Char) : List Char → Option Nat
  | [] => none
  | d :: rest => if d = c then some 0 else (indexOfChar c rest).map (· + 1)

/-- `splitCommitMessage` from `useGitHubStats.ts`: split a full commit
message at the first newline into a title and an optional body; the body is
the remainder with its leading run of newlines stripped (`replace(/^\n+/,
"")`), and is `none` when that remainder is empty or there is no newline at
all. -/
def splitCommitMessage (msg : List Char) : List Char × Option (List Char) :=
  match indexOfChar '\n' msg with
  | none => (msg, none)
  | some firstNewline =>
    let title := msg.take firstNewline
    let rest := (msg.drop (firstNewline + 1)).dropWhile (fun c => c = '\n')
    (title, if rest.isEmpty then none else some rest)

/-! ### Spec-side formulations for the commit split (claim C8) -/

/-- Title as the spec words it: the text up to the first newline. -/
def specTitle (msg : List Char) : List Char :=
  msg.takeWhile (fun c => c ≠ '\n')

/-- Body as the spec words it: the text after the first newline with the
blank-line run that follows the title stripped, absent when nothing
remains or the message is a single line. -/
def specBody (msg : List Char) : Option (List Char) :=
  if msg.any (fun c => c = '\n') then
    let r := ((msg.dropWhile (fun c => c ≠ '\n')).drop 1).dropWhile (fun c => c = '\n')
    if r.isEmpty then none else some r
  else none

/-! ### Count-via-pagination (`ghCount` in `useGitHubStats.ts`, claim C9) -/

/-- Parsed JSON body of a count-endpoint response: either an array of items
(each item abstracted to `Unit`; only the length matters) or a non-array
value, as distinguished by `Array.isArray` in the source. -/
inductive JsonBody where
  | arr (items : List Unit)
  | notArr
deriving DecidableEq

/-- A settled HTTP response to a `ghCount` request: status flag, optional
`Link` header, parsed body. -/
structure CountResponse where
  ok : Bool
  link : Option (List Char)
  body : JsonBody
deriving DecidableEq

/-- `ghCount` from `useGitHubStats.ts`: count items via a `per_page=1`
request.  Non-success response yields 0; otherwise the last-page number
from the `Link` header, falling back to counting the items of an array
body (0 for a non-array body). -/
def ghCount (resp : CountResponse) : Nat :=
  if !resp.ok then 0
  else
    let lastPage := extractLastPage resp.link
    if lastPage > 0 then lastPage
    else
      match resp.body with
      | .arr items => items.length
      | .notArr => 0

/-! ### Recent commits (claim C10) -/

/-- Raw commit entry as consumed from the commits endpoint (flattened:
`commit.message`, `commit.author.name`, `commit.author.date`, `html_url`). -/
structure RawCommit where
  sha : List Char
  message : List Char
  author : List Char
  date : List Char
  url : List Char
deriving DecidableEq

/-- `CommitEntry` from `useGitHubStats.ts`. -/
structure CommitEntry where
  sha : List Char
  title : List Char
  body : Option (List Char)
  author : List Char
  date : List Char
  url : List Char
deriving DecidableEq

/-- The filtered-out marker substring. -/
def skipCiLit : List Char := "[skip ci]".toList

/-- The per-commit mapping in `doFetch`: truncate the sha to 7 characters
and split the message into title and body. -/
def mkCommitEntry (c : RawCommit) : CommitEntry :=
  let p := splitCommitMessage c.message
  { sha := c.sha.take 7, title := p.1, body := p.2,
    author := c.author, date := c.date, url := c.url }

/-- The `recentCommits` computation in `doFetch`: drop commits whose full
message contains `[skip ci]`, then map to `CommitEntry`. -/
def buildRecentCommits (commits : List RawCommit) : List CommitEntry :=
  (commits.filter (fun c => !(hasLit skipCiLit c.message))).map mkCommitEntry

/-! ### The fetch pipeline (`doFetch` in `useGitHubStats.ts`, claim C2)

Each sub-request's settled outcome is an input: `Except.error` models a
rejected promise (network failure, abort, or a thrown error inside
`ghFetch` on a non-success status), `Except.ok` a resolved one.  The
pipeline is then a pure function of these outcomes.  `Promise.all` rejects
whenever any of its members rejects; which member's reason wins depends on
settlement timing, so the model picks members in declaration order — the
claims below only depend on whether the pipeline rejects, not on the
reason. -/

/-- Result of `ghFetch`: payload plus rate-limit headers. -/
structure GhResp (α : Type) where
  data : α
  remaining : Nat
  limit : Nat
deriving DecidableEq

/-- Raw repository overview from the primary request. -/
structure RepoResp where
  stargazers_count : Nat
  forks_count : Nat
  subscribers_count : Nat
  open_issues_count : Nat
  size : Nat
  default_branch : List Char
  license : Option (List Char)
  created_at : List Char
  updated_at : List Char
  pushed_at : List Char
deriving DecidableEq

/-- Weekly commit activity entry. -/
structure WeeklyActivity where
  week : Nat
  total : Nat
  days : List Nat
deriving DecidableEq

/-- Inputs of the weekly-activity sub-fetch: the live endpoint outcome and
the outcome of fetching `/weekly-activity-cache.json` (status flag and
parsed body). -/
structure ActivityInput where
  live : Except String (GhResp (List WeeklyActivity))
  cache : Except String (Bool × List WeeklyActivity)

/-- The inlined async fallback in `doFetch`: use the live series when
non-empty; on an empty live series or a live failure fall back to the
static cache when it is fetchable and OK; otherwise an empty series.  This
sub-request never rejects. -/
def fetchActivity (inp : ActivityInput) : GhResp (List WeeklyActivity) :=
  match inp.live with
  | .ok res =>
    if res.data.length > 0 then res
    else
      match inp.cache with
      | .ok (true, cached) =>
        { data := cached, remaining := res.remaining, limit := res.limit }
      | _ => { data := [], remaining := res.remaining, limit := res.limit }
  | .error _ =>
    match inp.cache with
    | .ok (true, cached) => { data := cached, remaining := 0, limit := 60 }
    | _ => { data := [], remaining := 0, limit := 60 }

/-- A social handle pair as exposed on a stargazer. -/
structure SocialHandle where
  handle : List Char
  url : List Char
deriving DecidableEq

/-- Social-cache entry for one login (the `source`/`verified` fields of the
JSON are never read by the hook and are omitted). -/
structure SocialCacheEntry where
  mastodon : Option SocialHandle
  twitter : Option SocialHandle
  bluesky : Option SocialHandle
deriving DecidableEq

/-- Raw stargazer entry from the stargazers endpoint. -/
structure StargazerResp where
  login : List Char
  avatar_url : List Char
  html_url : List Char
deriving DecidableEq

/-- Enriched stargazer as assembled by `doFetch`. -/
structure Stargazer where
  login : List Char
  avatarUrl : List Char
  profileUrl : List Char
  mastodon : Option SocialHandle
  twitter : Option SocialHandle
  bluesky : Option SocialHandle
deriving DecidableEq

/-- The stargazer enrichment: left join against the social-cache entries
keyed by login; unmatched stargazers keep `none` in the social fields. -/
def mkStargazer (entries : List (List Char × SocialCacheEntry))
    (u : StargazerResp) : Stargazer :=
  match entries.lookup u.login with
  | some e =>
    { login := u.login, avatarUrl := u.avatar_url, profileUrl := u.html_url,
      mastodon := e.mastodon, twitter := e.twitter, bluesky := e.bluesky }
  | none =>
    { login := u.login, avatarUrl := u.avatar_url, profileUrl := u.html_url,
      mastodon := none, twitter := none, bluesky := none }

/-- Settled response of the merged-PR search request. -/
structure SearchResp where
  ok : Bool
  total_count : Option Nat
deriving DecidableEq

/-- Settled response of the social-cache fetch. -/
structure SocialResp where
  ok : Bool
  entries : List (List Char × SocialCacheEntry)
deriving DecidableEq

/-- Settled response of the total-commit-count request; only its `Link`
header is read (the status is never checked in the source). -/
structure LinkOnlyResp where
  link : Option (List Char)
deriving DecidableEq

/-- All sub-request outcomes feeding one execution of `doFetch`. -/
structure FetchInput where
  repo : Except String (GhResp RepoResp)
  commits : Except String (GhResp (List RawCommit))
  languages : Except String (GhResp (List (List Char × Nat)))
  activity : ActivityInput
  openPRs : Except String CountResponse
  closedPRs : Except String CountResponse
  closedIssues : Except String CountResponse
  releasesR : Except String CountResponse
  contributorsR : Except String CountResponse
  branchesR : Except String CountResponse
  tagsR : Except String CountResponse
  stargazersR : Except String (GhResp (List StargazerResp))
  commitCount : Except String LinkOnlyResp
  mergedSearch : Except String SearchResp
  social : Except String SocialResp

/-- `ghCount` lifted over the settled fetch outcome: a rejected fetch
propagates (there is no catch inside `ghCount`), a resolved one is counted. -/
def ghCountE (r : Except String CountResponse) : Except String Nat :=
  match r with
  | .error e => .error e
  | .ok resp => .ok (ghCount resp)

/-- Whether an `Except` is a success. -/
def isOkE {ε α : Type} : Except ε α → Bool
  | .ok _ => true
  | .error _ => false

/-- The assembled `GitHubStats` record. -/
structure GitHubStatsR where
  stars : Nat
  forks : Nat
  watchers : Nat
  openIssues : Nat
  size : Nat
  defaultBranch : List Char
  license : Option (List Char)
  createdAt : List Char
  updatedAt : List Char
  pushedAt : List Char
  totalCommits : Nat
  openPRs : Nat
  closedPRs : Nat
  mergedPRs : Nat
  closedIssues : Nat
  releases : Nat
  contributors : Nat
  branches : Nat
  tags : Nat
  recentCommits : List CommitEntry
  languages : List (List Char × Nat)
  weeklyActivity : List WeeklyActivity
  stargazers : List Stargazer
  loading : Bool
  error : Option (List Char)
  rateLimit : Option (Nat × Nat)
deriving DecidableEq

/-- One execution of `doFetch` as a function of its sub-request outcomes
(`.error` = the returned promise rejects).  Mirrors the source: the
`Promise.all` members `repo`, `commits`, `languages` and the seven
`ghCount`s reject the whole fetch when they reject; weekly activity is the
wrapped fallback; the stargazer fetch carries `.catch` returning an empty
page; then the sequential total-commit-count fetch (un-caught), the
merged-PR search and the social-cache fetch (both wrapped in try/catch). -/
def doFetchModel (inp : FetchInput) : Except String GitHubStatsR :=
  match inp.repo with
  | .error e => .error e
  | .ok repoResult =>
  match inp.commits with
  | .error e => .error e
  | .ok commitsResult =>
  match inp.languages with
  | .error e => .error e
  | .ok languagesResult =>
  match ghCountE inp.openPRs with
  | .error e => .error e
  | .ok openPRsCount =>
  match ghCountE inp.closedPRs with
  | .error e => .error e
  | .ok closedPRsCount =>
  match ghCountE inp.closedIssues with
  | .error e => .error e
  | .ok closedIssuesCount =>
  match ghCountE inp.releasesR with
  | .error e => .error e
  | .ok releasesCount =>
  match ghCountE inp.contributorsR with
  | .error e => .error e
  | .ok contributorsCount =>
  match ghCountE inp.branchesR with
  | .error e => .error e
  | .ok branchesCount =>
  match ghCountE inp.tagsR with
  | .error e => .error e
  | .ok tagsCount =>
  let activityResult := fetchActivity inp.activity
  let stargazersResult :=
    match inp.stargazersR with
    | .ok r => r
    | .error _ => { data := [], remaining := 0, limit := 60 }
  match inp.commitCount with
  | .error e => .error e
  | .ok commitCountResponse =>
  let totalCommits := extractLastPage commitCountResponse.link
  let mergedPRs :=
    match inp.mergedSearch with
    | .ok s => if s.ok then s.total_count.getD 0 else 0
    | .error _ => 0
  let socialEntries :=
    match inp.social with
    | .ok s => if s.ok then s.entries else []
    | .error _ => []
  let repo := repoResult.data
  .ok
    { stars := repo.stargazers_count
      forks := repo.forks_count
      watchers := repo.subscribers_count
      openIssues := repo.open_issues_count
      size := repo.size
      defaultBranch := repo.default_branch
      license := repo.license
      createdAt := repo.created_at
      updatedAt := repo.updated_at
      pushedAt := repo.pushed_at
      totalCommits := totalCommits
      openPRs := openPRsCount
      closedPRs := closedPRsCount
      mergedPRs := mergedPRs
      closedIssues := closedIssuesCount
      releases := releasesCount
      contributors := contributorsCount
      branches := branchesCount
      tags := tagsCount
      recentCommits := buildRecentCommits commitsResult.data
      languages := languagesResult.data
      weeklyActivity := activityResult.data
      stargazers := stargazersResult.data.map (mkStargazer socialEntries)
      loading := false
      error := none
      rateLimit := some (repoResult.remaining, repoResult.limit) }

/-! ### Concrete pipeline inputs used by the counterexample and scenarios -/

/-- A normal commit. -/
def exCommitA : RawCommit :=
  { sha := "0123456789abc".toList,
    message := "Fix bug\n\nDetails here\nmore details".toList,
    author := "alice".toList, date := "2025-01-01".toList,
    url := "https://example.invalid/a".toList }

/-- A commit whose message contains the `[skip ci]` marker. -/
def exCommitB : RawCommit :=
  { sha := "fedcba9876543".toList,
    message := "chore: bump version [skip ci]".toList,
    author := "bob".toList, date := "2025-01-02".toList,
    url := "https://example.invalid/b".toList }

/-- A successful repository-overview response. -/
def okRepoResp : GhResp RepoResp :=
  { data :=
    { stargazers_count := 42, forks_count := 3, subscribers_count := 5,
      open_issues_count := 2, size := 100,
      default_branch := "main".toList, license := some ("MIT".toList),
      created_at := "2024-01-01".toList, updated_at := "2025-01-01".toList,
      pushed_at := "2025-01-02".toList },
    remaining := 59, limit := 60 }

/-- A successful count response: one item, no `Link` header. -/
def okCount : CountResponse := { ok := true, link := none, body := .arr [()] }

/-- A fully successful set of sub-request outcomes; the commits page holds
two commits, one of them marked `[skip ci]`. -/
def exInputBase : FetchInput :=
  { repo := .ok okRepoResp,
    commits := .ok { data := [exCommitA, exCommitB], remaining := 58, limit := 60 },
    languages := .ok { data := [("Swift".toList, 1000)], remaining := 57, limit := 60 },
    activity :=
      { live := .ok { data := [], remaining := 56, limit := 60 },
        cache := .ok (true, [{ week := 1, total := 2, days := [0, 2] }]) },
    openPRs := .ok okCount, closedPRs := .ok okCount,
    closedIssues := .ok okCount, releasesR := .ok okCount,
    contributorsR := .ok okCount, branchesR := .ok okCount,
    tagsR := .ok okCount,
    stargazersR := .ok
      { data := [{ login := "alice".toList,
                   avatar_url := "https://example.invalid/av".toList,
                   html_url := "https://example.invalid/alice".toList }],
        remaining := 55, limit := 60 },
    commitCount := .ok { link := some ("<https://x?page=34>; rel=\"last\"".toList) },
    mergedSearch := .ok { ok := true, total_count := some 12 },
    social := .ok { ok := true, entries := [] } }

/-- The same input except that the recent-commits sub-request (a secondary
request) rejects. -/
def exInputC2 : FetchInput :=
  { exInputBase with commits := .error "network down" }

/-! ### Supersession model of `useGitHubStats.doFetch` (claim C1)

`doFetch` keeps one `AbortController` in a ref; a new invocation aborts the
previous controller and installs a fresh one.  The model tracks the stats
record (payload abstracted to a `Nat` tag), the id of the current
controller, and the in-flight fetches, each tagged with the phase its
suspension point is in.  An invocation is `critical` while suspended at an
await whose abort rejection propagates to the outer catch (the
`Promise.all` members and the sequential total-commit-count fetch); it is
in the `tail` once past the total-commit-count await, where every
remaining await (the merged-PR search and the social-cache fetch, and
their `json()` reads) sits inside a `try/catch` that swallows all
rejections, the abort rejection included, so the invocation always runs on
to `setStats(result)` and resolves successfully.  A fetch resolution
applies the source's continuation: the success path stores the result with
no abort check (line 473), the failure path re-throws without touching
state when its own signal is aborted (line 476). -/

/-- Settled outcome of one `doFetch` invocation's promise chain. -/
inductive FetchOutcome where
  | success (data : Nat)
  | failure (msg : String)
deriving DecidableEq

/-- Whether an outcome is a rejection. -/
def FetchOutcome.isFailure : FetchOutcome → Bool
  | .success _ => false
  | .failure _ => true

/-- The hook's `stats` record, with all data fields abstracted to a tag. -/
structure InnerStats where
  data : Nat
  loading : Bool
  error : Option String
deriving DecidableEq

/-- Phase of an in-flight `doFetch` invocation: `critical` while its
pending await rejects through to the outer catch on abort; `tail` once it
has passed the total-commit-count await, after which every remaining await
swallows its rejections and the invocation is guaranteed to resolve
successfully. -/
inductive FetchPhase where
  | critical
  | tail
deriving DecidableEq

/-- State of a mounted `useGitHubStats`: stats, current controller id,
in-flight fetch ids with their phases. -/
structure InnerState where
  stats : InnerStats
  current : Nat
  pending : List (Nat × FetchPhase)
deriving DecidableEq

/-- Events of the inner hook: a `doFetch` invocation (which aborts the
previous controller), an in-flight invocation passing the
total-commit-count await into the swallowed tail, and the settlement of an
in-flight fetch. -/
inductive InnerEvent where
  | start
  | enterTail (id : Nat)
  | resolve (id : Nat) (out : FetchOutcome)
deriving DecidableEq

/-- Effect of a settled fetch on the stats record, as written in the
source: success stores the assembled result unconditionally; failure
re-throws without a state write when the fetch's own signal was aborted,
and records the error otherwise. -/
def applyOutcome (aborted : Bool) (out : FetchOutcome)
    (s : InnerStats) : InnerStats :=
  match out with
  | .success d => { data := d, loading := false, error := none }
  | .failure _m =>
    if aborted then s
    else { s with loading := false, error := some _m }

/-- One step of the inner hook.  `start` aborts the previous controller
(its id ceases to be `current`), allocates the next controller id, and
synchronously sets `loading`; `enterTail` marks an invocation as past the
total-commit-count await; `resolve` applies the continuation of a
still-pending fetch. -/
def innerStep (st : InnerState) (e : InnerEvent) : InnerState :=
  match e with
  | .start =>
    let id := st.current + 1
    { stats := { st.stats with loading := true, error := none },
      current := id, pending := (id, FetchPhase.critical) :: st.pending }
  | .enterTail id =>
    { st with
      pending := st.pending.map
        (fun p => if p.1 = id then (p.1, FetchPhase.tail) else p) }
  | .resolve id out =>
    if (st.pending.lookup id).isSome then
      { stats := applyOutcome (id != st.current) out st.stats,
        current := st.current,
        pending := st.pending.filter (fun p => p.1 ≠ id) }
    else st

/-- Run a list of events. -/
def innerRun (st : InnerState) (es : List InnerEvent) : InnerState :=
  es.foldl innerStep st

/-- Environment assumption on a single event.  Only a still-current
critical fetch can pass into the tail (a superseded critical fetch's
pending await has already rejected).  A settlement concerns an in-flight
fetch and respects the transport: a superseded fetch still in its
critical phase settles as a rejection (its pending await rejected with
the abort and the rejection propagates to the outer catch), while a fetch
that reached the tail always settles successfully — its remaining awaits
swallow every rejection, the abort included — whether or not it has been
superseded. -/
def ValidEvent (st : InnerState) : InnerEvent → Prop
  | .start => True
  | .enterTail id =>
    st.pending.lookup id = some FetchPhase.critical ∧ id = st.current
  | .resolve id out =>
    match st.pending.lookup id with
    | none => False
    | some FetchPhase.critical => id ≠ st.current → out.isFailure = true
    | some FetchPhase.tail => out.isFailure = false

/-- A trace of events, each valid in the state it fires from. -/
def ValidTrace : InnerState → List InnerEvent → Prop
  | _, [] => True
  | st, e :: es => ValidEvent st e ∧ ValidTrace (innerStep st e) es

/-! ### State machine of `useGitHubStatsCache` (claims C3–C7)

The wrapper hook's state: the inner hook's stats, the abort generation
shared with it, the wrapper's own React state, the `localStorage` cell,
and the timers (`setTimeout` one-shot, live `setInterval`s — kept as a
list because the source can leak intervals — plus the `intervalRef`
cell).  Timestamps are epoch milliseconds. -/

/-- `REFRESH_INTERVAL_MS` (the stats TTL): 5 minutes. -/
def REFRESH_INTERVAL_MS : Nat := 5 * 60 * 1000

/-- `FORCE_REFRESH_COOLDOWN_MS`: 60 seconds. -/
def FORCE_REFRESH_COOLDOWN_MS : Nat := 60 * 1000

/-- A `GitHubStats` record as stored and exposed by the wrapper: payload
abstracted to a tag plus the meta flags the wrapper manipulates. -/
structure GStats where
  data : Nat
  loading : Bool
  error : Option String
deriving DecidableEq

/-- The `localStorage` envelope `{data, fetchedAt}`. -/
structure CacheEntry where
  data : GStats
  fetchedAt : Nat
deriving DecidableEq

/-- Full state of a mounted `useGitHubStatsCache` (plus its inner hook and
environment cells). -/
structure WrapState where
  innerStats : GStats
  current : Nat
  pendingWrap : List Nat
  overrideStats : Option GStats
  lastFetchedAt : Option Nat
  nextRefreshAt : Option Nat
  isFromCache : Bool
  isRefreshing : Bool
  storage : Option CacheEntry
  timeoutPending : Option Nat
  intervals : List (Nat × Nat)
  intervalRef : Option Nat
  nextTimerId : Nat
  mounted : Bool
deriving DecidableEq

/-- Events driving the wrapper: the mount effects, the one-shot timeout
firing, a live interval firing, a `forceRefresh` click, and the settlement
of an in-flight `fetchData` call (with the `Date.now()` observed by its
continuation). -/
inductive WrapEvent where
  | mount (now : Nat)
  | fireTimeout (now : Nat)
  | fireInterval (id : Nat) (now : Nat)
  | force (now : Nat)
  | resolve (id : Nat) (out : FetchOutcome) (now : Nat)
deriving DecidableEq

/-- Synchronous prefix of `doFetchAndCache`: `setIsRefreshing(true)`, then
`fetchData`'s synchronous part (abort the previous controller, allocate a
new one, set the inner `loading`/`error`). -/
def beginFetch (st : WrapState) : WrapState :=
  let id := st.current + 1
  { st with
    isRefreshing := true,
    innerStats := { st.innerStats with loading := true, error := none },
    current := id,
    pendingWrap := id :: st.pendingWrap }

/-- Continuation of `doFetchAndCache` when the underlying fetch settles.
The inner hook's `setStats` runs first (success stores the result; an
aborted failure re-throws without a write).  Then the wrapper: on success
`writeCache` (timestamped with the continuation's `Date.now()`), the four
state updates, and the override store; on failure nothing; in both cases
the `finally` clears `isRefreshing`. -/
def resolveFetch (st : WrapState) (id : Nat) (out : FetchOutcome)
    (now : Nat) : WrapState :=
  if st.pendingWrap.contains id then
    let st1 := { st with pendingWrap := st.pendingWrap.erase id }
    let aborted := id != st1.current
    match out with
    | .success d =>
      let fresh : GStats := { data := d, loading := false, error := none }
      { st1 with
        innerStats := fresh,
        storage := some { data := fresh, fetchedAt := now },
        lastFetchedAt := some now,
        nextRefreshAt := some (now + REFRESH_INTERVAL_MS),
        isFromCache := false,
        overrideStats := some fresh,
        isRefreshing := false }
    | .failure m =>
      { st1 with
        innerStats :=
          if aborted then st1.innerStats
          else { st1.innerStats with loading := false, error := some m },
        isRefreshing := false }
  else st

/-- The two mount effects, in declaration order.  The first reads the
cache: a fresh entry (age strictly below the TTL) is adopted with
`loading: false`, `error: null`, `isFromCache: true` and no fetch;
otherwise `doFetchAndCache` starts.  The second reads the cache again and
arms the one-shot timeout at `max(0, TTL - age)` (full TTL with no entry);
natural subtraction supplies the clamping. -/
def mountStep (st : WrapState) (now : Nat) : WrapState :=
  if st.mounted then st
  else
    let st0 := { st with mounted := true }
    let st1 :=
      match st0.storage with
      | some cached =>
        if now - cached.fetchedAt < REFRESH_INTERVAL_MS then
          { st0 with
            overrideStats := some { cached.data with loading := false, error := none },
            lastFetchedAt := some cached.fetchedAt,
            nextRefreshAt := some (cached.fetchedAt + REFRESH_INTERVAL_MS),
            isFromCache := true }
        else beginFetch st0
      | none => beginFetch st0
    let initialDelay :=
      match st1.storage with
      | some cached => REFRESH_INTERVAL_MS - (now - cached.fetchedAt)
      | none => REFRESH_INTERVAL_MS
    { st1 with timeoutPending := some (now + initialDelay) }

/-- The one-shot timeout fires: `doFetchAndCache`, then install the
repeating interval and store its id in `intervalRef`. -/
def fireTimeoutStep (st : WrapState) (now : Nat) : WrapState :=
  match st.timeoutPending with
  | none => st
  | some _ =>
    let st1 := beginFetch { st with timeoutPending := none }
    let id := st1.nextTimerId
    { st1 with
      intervals := (id, now + REFRESH_INTERVAL_MS) :: st1.intervals,
      intervalRef := some id,
      nextTimerId := id + 1 }

/-- A live interval fires: `doFetchAndCache`, and that interval's next
occurrence moves one period ahead. -/
def fireIntervalStep (st : WrapState) (id : Nat) (now : Nat) : WrapState :=
  if (st.intervals.lookup id).isSome then
    let st1 := beginFetch st
    { st1 with
      intervals := st1.intervals.map
        (fun p => if p.1 = id then (p.1, now + REFRESH_INTERVAL_MS) else p) }
  else st

/-- The exposed `canForceRefresh` value: no recorded fetch yet, or the
cooldown has elapsed since `lastFetchedAt`. -/
def canForceRefreshM (st : WrapState) (now : Nat) : Bool :=
  match st.lastFetchedAt with
  | none => true
  | some t => FORCE_REFRESH_COOLDOWN_MS ≤ now - t

/-- Body of `forceRefresh` past the cooldown guard: clear the interval
held in `intervalRef` (the one-shot timeout is not touched),
`doFetchAndCache`, and install a fresh interval keyed off now. -/
def forceGo (st : WrapState) (now : Nat) : WrapState :=
  let st1 :=
    match st.intervalRef with
    | some i => { st with intervals := st.intervals.filter (fun p => p.1 ≠ i) }
    | none => st
  let st2 := beginFetch st1
  let id := st2.nextTimerId
  { st2 with
    intervals := (id, now + REFRESH_INTERVAL_MS) :: st2.intervals,
    intervalRef := some id,
    nextTimerId := id + 1 }

/-- `forceRefresh`: return immediately while the cooldown since
`lastFetchedAt` is still running (`lastFetchedAt` is only ever written on
a successful fetch), otherwise proceed. -/
def forceStep (st : WrapState) (now : Nat) : WrapState :=
  match st.lastFetchedAt with
  | some t => if now - t < FORCE_REFRESH_COOLDOWN_MS then st else forceGo st now
  | none => forceGo st now

/-- Dispatch one wrapper event. -/
def wrapStep (st : WrapState) : WrapEvent → WrapState
  | .mount now => mountStep st now
  | .fireTimeout now => fireTimeoutStep st now
  | .fireInterval id now => fireIntervalStep st id now
  | .force now => forceStep st now
  | .resolve id out now => resolveFetch st id out now

/-- Run a list of wrapper events. -/
def wrapRun (st : WrapState) (es : List WrapEvent) : WrapState :=
  es.foldl wrapStep st

/-- `initialStats` of the inner hook: zeroed data, `loading: true`. -/
def initialGStats : GStats := { data := 0, loading := true, error := none }

/-- State of a freshly rendered wrapper, before any effect has run, over a
given `localStorage` content. -/
def initWrap (storage : Option CacheEntry) : WrapState :=
  { innerStats := initialGStats, current := 0, pendingWrap := [],
    overrideStats := none, lastFetchedAt := none, nextRefreshAt := none,
    isFromCache := false, isRefreshing := false, storage := storage,
    timeoutPending := none, intervals := [], intervalRef := none,
    nextTimerId := 0, mounted := false }

/-- `activeStats`: the override (cached or last-written data) wins over the
inner hook's stats while it is set. -/
def activeStats (st : WrapState) : GStats :=
  st.overrideStats.getD st.innerStats

/-- `hasData`: a fetch time has been recorded. -/
def hasData (st : WrapState) : Bool :=
  st.lastFetchedAt.isSome

/-- The stats record the wrapper returns: `activeStats`, with `loading`
forced to `false` once data exists. -/
def exposedStats (st : WrapState) : GStats :=
  if hasData st then { activeStats st with loading := false } else activeStats st

/-- A wrapper state in the Periodic scheduler phase: the one-shot has
fired, a single live interval is held in `intervalRef`, and no fetch has
been recorded since (so the cooldown guard passes). -/
def exPeriodicState : WrapState :=
  { innerStats := ⟨5, false, none⟩, current := 1, pendingWrap := [],
    overrideStats := some ⟨5, false, none⟩, lastFetchedAt := none,
    nextRefreshAt := some 300000, isFromCache := false,
    isRefreshing := false, storage := none, timeoutPending := none,
    intervals := [(3, 500)], intervalRef := some 3, nextTimerId := 4,
    mounted := true }

/-! ### Helper lemmas -/

lemma indexOfChar_none_iff (c : Char) (l : List Char) :
    indexOfChar c l = none ↔ ∀ d ∈ l, d ≠ c := by
  induction l with
  | nil => simp [indexOfChar]
  | cons d rest ih =>
    by_cases h : d = c
    · simp [indexOfChar, h]
    · cases hrec : indexOfChar c rest with
      | none =>
        have hr : ∀ x ∈ rest, x ≠ c := ih.mp hrec
        simp only [indexOfChar, if_neg h, hrec, Option.map_none', List.mem_cons]
        constructor
        · intro _ x hx
          rcases hx with rfl | hx
          · exact h
          · exact hr x hx
        · intro _; trivial
      | some k =>
        simp only [indexOfChar, if_neg h, hrec, Option.map_some', List.mem_cons]
        constructor
        · intro hc; cases hc
        · intro hall
          exfalso
          have hn : indexOfChar c rest = none :=
            ih.mpr (fun x hx => hall x (Or.inr hx))
          rw [hrec] at hn; cases hn

lemma indexOfChar_some (c : Char) (l : List Char) (k : Nat)
    (h : indexOfChar c l = some k) :
    l.take k = l.takeWhile (fun d => d ≠ c) ∧
      l.drop (k + 1) = (l.dropWhile (fun d => d ≠ c)).drop 1 := by
  induction l generalizing k with
  | nil => simp [indexOfChar] at h
  | cons d rest ih =>
    by_cases hd : d = c
    · simp only [indexOfChar, if_pos hd] at h
      cases h
      subst hd
      constructor
      · simp [List.takeWhile_cons]
      · simp [List.dropWhile_cons]
    · simp only [indexOfChar, if_neg hd] at h
      cases hrec : indexOfChar c rest with
      | none => rw [hrec] at h; cases h
      | some j =>
        rw [hrec] at h
        simp only [Option.map_some'] at h
        cases h
        have hj := ih j hrec
        constructor
        · rw [List.take_succ_cons, List.takeWhile_cons]
          simp [hd, hj.1]
        · rw [List.drop_succ_cons, List.dropWhile_cons]
          simp [hd, hj.2]

lemma any_newline_of_indexOfChar_some (msg : List Char) (k : Nat)
    (h : indexOfChar '\n' msg = some k) :
    msg.any (fun c => c = '\n') = true := by
  cases hany : msg.any (fun c => c = '\n') with
  | true => rfl
  | false =>
    exfalso
    simp only [List.any_eq_false, decide_eq_true_eq] at hany
    have hnone : indexOfChar '\n' msg = none :=
      (indexOfChar_none_iff '\n' msg).mpr hany
    rw [hnone] at h
    cases h

/-- C8: for every commit message, `splitCommitMessage` yields the text up
to the first newline as the title, and as the body the remaining text
after the blank-line run that follows the title (absent when nothing
remains or the message has no newline); in particular the two scenario
messages split as the spec states. -/
theorem claim_C8_commit_split :
    (∀ msg : List Char,
        splitCommitMessage msg = (specTitle msg, specBody msg)) ∧
    splitCommitMessage ("Fix bug\n\nDetails here\nmore details".toList) =
      ("Fix bug".toList, some ("Details here\nmore details".toList)) ∧
    splitCommitMessage ("Fix bug".toList) = ("Fix bug".toList, none) := by
  refine ⟨?_, by decide, by decide⟩
  intro msg
  unfold splitCommitMessage specTitle specBody
  cases h : indexOfChar '\n' msg with
  | none =>
    have hall := (indexOfChar_none_iff '\n' msg).mp h
    have h1 : msg.takeWhile (fun c => c ≠ '\n') = msg :=
      List.takeWhile_eq_self_iff.mpr (by
        intro x hx
        simpa using hall x hx)
    have h2 : msg.any (fun c => c = '\n') = false := by
      simp only [List.any_eq_false, decide_eq_true_eq]
      exact hall
    rw [h1, h2]
    simp
  | some k =>
    obtain ⟨ht, hd⟩ := indexOfChar_some '\n' msg k h
    have hmem := any_newline_of_indexOfChar_some msg k h
    simp only [hmem, ht, hd, if_true]

/-- C9: for a successful count response, `ghCount` returns the last-page
number carried by the `Link` pagination metadata when present, and the
number of items of the returned page otherwise; in particular a response
of one item with no `Link` header yields a count of 1. -/
theorem claim_C9_count_via_pagination (resp : CountResponse)
    (hok : resp.ok = true) :
    (∀ n, 0 < n → extractLastPage resp.link = n → ghCount resp = n) ∧
    (∀ items, resp.body = .arr items → extractLastPage resp.link = 0 →
        ghCount resp = items.length) ∧
    ghCount { ok := true, link := none, body := .arr [()] } = 1 := by
  refine ⟨?_, ?_, by decide⟩
  · intro n hn hl
    unfold ghCount
    rw [hok]
    simp [hl, hn]
  · intro items hb hl
    unfold ghCount
    rw [hok, hb]
    simp [hl]

/-- Witness for C9: a concrete successful response whose `Link` header
carries last page 3 counts as 3, and one whose body is a single item with
no `Link` header counts as 1. -/
theorem claim_C9_witness :
    ghCount { ok := true,
              link := some ("<https://api.github.com/x?page=3>; rel=\"last\"".toList),
              body := .arr [] } = 3 ∧
    ghCount { ok := true, link := none, body := .arr [()] } = 1 := by
  have h := claim_C9_count_via_pagination
    { ok := true,
      link := some ("<https://api.github.com/x?page=3>; rel=\"last\"".toList),
      body := .arr [] } rfl
  exact ⟨h.1 3 (by decide) (by decide), h.2.2⟩

/-- C2 counterexample: a fetch input whose primary repository request
succeeds but whose recent-commits sub-request rejects makes the whole
fetch reject — contradicting the claim that only a primary failure can
reject it. -/
theorem claim_C2_counterexample :
    doFetchModel exInputC2 = .error "network down" ∧
    exInputC2.repo = .ok okRepoResp :=
  ⟨rfl, rfl⟩

/-- C2 amended: the fetch rejects exactly when the primary repository
request, the recent-commits request, the languages request, one of the
seven pagination-count requests, or the total-commit-count request
rejects; rejected weekly-activity, stargazer, merged-PR-search and
social-lookup sub-requests never reject the fetch. -/
theorem claim_C2_amended (inp : FetchInput) :
    isOkE (doFetchModel inp) =
      (isOkE inp.repo && isOkE inp.commits && isOkE inp.languages &&
       isOkE inp.openPRs && isOkE inp.closedPRs && isOkE inp.closedIssues &&
       isOkE inp.releasesR && isOkE inp.contributorsR && isOkE inp.branchesR &&
       isOkE inp.tagsR && isOkE inp.commitCount) := by
  obtain ⟨repo, commits, languages, activity, oP, cP, cI, rel, co, br, tg, sg, cc, ms, so⟩ := inp
  cases repo with
  | error e => simp [doFetchModel, isOkE]
  | ok repoResult =>
  cases commits with
  | error e => simp [doFetchModel, isOkE]
  | ok commitsResult =>
  cases languages with
  | error e => simp [doFetchModel, isOkE]
  | ok languagesResult =>
  cases oP with
  | error e => simp [doFetchModel, ghCountE, isOkE]
  | ok oPresp =>
  cases cP with
  | error e => simp [doFetchModel, ghCountE, isOkE]
  | ok cPresp =>
  cases cI with
  | error e => simp [doFetchModel, ghCountE, isOkE]
  | ok cIresp =>
  cases rel with
  | error e => simp [doFetchModel, ghCountE, isOkE]
  | ok relresp =>
  cases co with
  | error e => simp [doFetchModel, ghCountE, isOkE]
  | ok coresp =>
  cases br with
  | error e => simp [doFetchModel, ghCountE, isOkE]
  | ok brresp =>
  cases tg with
  | error e => simp [doFetchModel, ghCountE, isOkE]
  | ok tgresp =>
  cases cc with
  | error e => simp [doFetchModel, ghCountE, isOkE]
  | ok ccresp =>
  simp [doFetchModel, ghCountE, isOkE]

lemma recentCommits_of_ok (inp : FetchInput) (res : GitHubStatsR)
    (cs : GhResp (List RawCommit)) (h : doFetchModel inp = .ok res)
    (hcs : inp.commits = .ok cs) :
    res.recentCommits = buildRecentCommits cs.data := by
  obtain ⟨repo, commits, languages, activity, oP, cP, cI, rel, co, br, tg, sg, cc, ms, so⟩ := inp
  cases repo with
  | error e => simp [doFetchModel] at h
  | ok repoResult =>
  cases commits with
  | error e => simp [doFetchModel] at h
  | ok commitsResult =>
  cases languages with
  | error e => simp [doFetchModel] at h
  | ok languagesResult =>
  cases oP with
  | error e => simp [doFetchModel, ghCountE] at h
  | ok oPresp =>
  cases cP with
  | error e => simp [doFetchModel, ghCountE] at h
  | ok cPresp =>
  cases cI with
  | error e => simp [doFetchModel, ghCountE] at h
  | ok cIresp =>
  cases rel with
  | error e => simp [doFetchModel, ghCountE] at h
  | ok relresp =>
  cases co with
  | error e => simp [doFetchModel, ghCountE] at h
  | ok coresp =>
  cases br with
  | error e => simp [doFetchModel, ghCountE] at h
  | ok brresp =>
  cases tg with
  | error e => simp [doFetchModel, ghCountE] at h
  | ok tgresp =>
  cases cc with
  | error e => simp [doFetchModel, ghCountE] at h
  | ok ccresp =>
  simp only [Except.ok.injEq] at hcs
  subst hcs
  simp only [doFetchModel, ghCountE] at h
  obtain rfl : _ = res := Except.ok.inj h
  rfl

/-- The fully assembled result of `doFetchModel` on `exInputBase`. -/
def exResC10 : GitHubStatsR :=
  { stars := 42, forks := 3, watchers := 5, openIssues := 2, size := 100,
    defaultBranch := "main".toList, license := some ("MIT".toList),
    createdAt := "2024-01-01".toList, updatedAt := "2025-01-01".toList,
    pushedAt := "2025-01-02".toList,
    totalCommits := 34, openPRs := 1, closedPRs := 1, mergedPRs := 12,
    closedIssues := 1, releases := 1, contributors := 1, branches := 1,
    tags := 1,
    recentCommits := buildRecentCommits [exCommitA, exCommitB],
    languages := [("Swift".toList, 1000)],
    weeklyActivity := [{ week := 1, total := 2, days := [0, 2] }],
    stargazers := [mkStargazer []
      { login := "alice".toList,
        avatar_url := "https://example.invalid/av".toList,
        html_url := "https://example.invalid/alice".toList }],
    loading := false, error := none, rateLimit := some (59, 60) }

/-- C10: on every successful fetch, the exposed `recentCommits` are exactly
the fetched commits whose full message lacks the `[skip ci]` substring,
mapped to entries in endpoint order (a sublist of the full mapped page);
the concrete run on `exInputBase` succeeds with a 2-commit page yet only 1
exposed entry. -/
theorem claim_C10_recent_commits :
    (∀ inp res cs, doFetchModel inp = .ok res → inp.commits = .ok cs →
        res.recentCommits =
          (cs.data.filter (fun c => !(hasLit skipCiLit c.message))).map mkCommitEntry ∧
        res.recentCommits.Sublist (cs.data.map mkCommitEntry)) ∧
    (doFetchModel exInputBase).map (fun r => r.recentCommits.length) = .ok 1 ∧
    exInputBase.commits.map (fun c => c.data.length) = .ok 2 := by
  refine ⟨?_, by rfl, by rfl⟩
  intro inp res cs h hcs
  have hr := recentCommits_of_ok inp res cs h hcs
  constructor
  · exact hr
  · rw [hr]
    exact (List.filter_sublist _).map _

/-- Witness for C10 at `exInputBase`: the fetch succeeds with `exResC10`,
whose exposed commits are the filtered mapped page. -/
theorem claim_C10_witness :
    doFetchModel exInputBase = .ok exResC10 ∧
    exResC10.recentCommits =
      (([exCommitA, exCommitB].filter
          (fun c => !(hasLit skipCiLit c.message))).map mkCommitEntry) ∧
    exResC10.recentCommits.Sublist ([exCommitA, exCommitB].map mkCommitEntry) := by
  have h := claim_C10_recent_commits.1 exInputBase exResC10
    { data := [exCommitA, exCommitB], remaining := 58, limit := 60 } (by rfl) (by rfl)
  exact ⟨by rfl, h.1, h.2⟩

/-- C1, evaluated at the failing schedule: fetch 1 passes the
total-commit-count await into the try/catch-swallowed tail before fetch 2
starts and aborts it; fetch 2 completes successfully with payload 20, and
only afterwards does fetch 1's tail complete — its abort rejections
swallowed — so the abort-unchecked success path stores fetch 1's stale
payload 10.  The final stats reflect the superseded fetch, not fetch 2,
and the cancelled fetch has mutated state, contradicting the claim; the
schedule is admissible for the environment (`ValidTrace`). -/
theorem claim_C1_stale_write :
    ValidTrace ⟨⟨0, false, none⟩, 0, []⟩
      [.start, .enterTail 1, .start, .resolve 2 (.success 20),
       .resolve 1 (.success 10)] ∧
    (innerRun ⟨⟨0, false, none⟩, 0, []⟩
      [.start, .enterTail 1, .start, .resolve 2 (.success 20)]).stats =
      ⟨20, false, none⟩ ∧
    (innerRun ⟨⟨0, false, none⟩, 0, []⟩
      [.start, .enterTail 1, .start, .resolve 2 (.success 20),
       .resolve 1 (.success 10)]).stats = ⟨10, false, none⟩ := by
  refine ⟨?_, rfl, rfl⟩
  exact ⟨trivial, ⟨rfl, rfl⟩, trivial, fun h => absurd rfl h, rfl, trivial⟩

/-- C3, evaluated at the failing scenario: after one successful fetch
(payload 7, recorded at 100 ms) a later permitted refresh fails; the
facade still exposes the old snapshot's data but its exposed `error`
remains `none` — the inner hook recorded the error string, the override
record (whose `error` is always `null`) masks it — contradicting the
claimed non-null error surface. -/
theorem claim_C3_error_masked :
    (exposedStats (wrapRun (initWrap none)
      [.mount 0, .resolve 1 (.success 7) 100, .force 70000,
       .resolve 2 (.failure "GitHub API 500: Internal Server Error") 70200])).data = 7 ∧
    (exposedStats (wrapRun (initWrap none)
      [.mount 0, .resolve 1 (.success 7) 100, .force 70000,
       .resolve 2 (.failure "GitHub API 500: Internal Server Error") 70200])).error = none ∧
    (wrapRun (initWrap none)
      [.mount 0, .resolve 1 (.success 7) 100, .force 70000,
       .resolve 2 (.failure "GitHub API 500: Internal Server Error") 70200]).innerStats.error =
      some "GitHub API 500: Internal Server Error" ∧
    (wrapRun (initWrap none)
      [.mount 0, .resolve 1 (.success 7) 100, .force 70000,
       .resolve 2 (.failure "GitHub API 500: Internal Server Error") 70200]).overrideStats =
      some ⟨7, false, none⟩ :=
  ⟨rfl, rfl, rfl, rfl⟩

/-- C4 counterexample: on a cold-start mount (no cache) the wrapper begins
a fetch with `setIsRefreshing(true)` unconditionally while no data exists,
so the exposed `loading` and `isRefreshing` are simultaneously true. -/
theorem claim_C4_counterexample :
    (exposedStats (wrapRun (initWrap none) [.mount 0])).loading = true ∧
    (wrapRun (initWrap none) [.mount 0]).isRefreshing = true :=
  ⟨rfl, rfl⟩

/-- C4 amended: the exposed `loading` is true only while no fetch has been
recorded; once `lastFetchedAt` is set, the exposed `loading` is forced
false, so it can no longer coincide with `isRefreshing`.  Before any data,
both flags do go true together (see the counterexample). -/
theorem claim_C4_amended (st : WrapState) :
    ((exposedStats st).loading = true → st.lastFetchedAt = none) ∧
    (st.lastFetchedAt.isSome = true →
      ¬((exposedStats st).loading = true ∧ st.isRefreshing = true)) := by
  have key : st.lastFetchedAt.isSome = true → (exposedStats st).loading = false := by
    intro hs
    simp [exposedStats, hasData, hs]
  constructor
  · intro h
    cases hl : st.lastFetchedAt with
    | none => rfl
    | some t =>
      have hf := key (by simp [hl])
      rw [hf] at h
      cases h
  · intro hs hc
    rw [key hs] at hc
    cases hc.1

/-- Witness for C4 at a state that holds data: the exposed `loading` and
`isRefreshing` cannot both be true there. -/
theorem claim_C4_witness :
    ¬((exposedStats (wrapRun (initWrap none)
        [.mount 0, .resolve 1 (.success 7) 100])).loading = true ∧
      (wrapRun (initWrap none)
        [.mount 0, .resolve 1 (.success 7) 100]).isRefreshing = true) :=
  (claim_C4_amended (wrapRun (initWrap none)
    [.mount 0, .resolve 1 (.success 7) 100])).2 rfl

/-- C5: over a fresh cache entry (age strictly below the TTL) the mount
adopts the entry with `isFromCache = true`, exposes its data with
`loading = false`, issues no fetch, and arms the one-shot at exactly the
remaining TTL; with no entry the one-shot is armed at the full TTL and a
fetch starts immediately. -/
theorem claim_C5_warm_start (entry : CacheEntry) (now : Nat)
    (hfresh : now - entry.fetchedAt < REFRESH_INTERVAL_MS) :
    (mountStep (initWrap (some entry)) now).overrideStats =
      some { entry.data with loading := false, error := none } ∧
    (mountStep (initWrap (some entry)) now).isFromCache = true ∧
    (exposedStats (mountStep (initWrap (some entry)) now)).loading = false ∧
    (exposedStats (mountStep (initWrap (some entry)) now)).data = entry.data.data ∧
    (mountStep (initWrap (some entry)) now).lastFetchedAt = some entry.fetchedAt ∧
    (mountStep (initWrap (some entry)) now).current = 0 ∧
    (mountStep (initWrap (some entry)) now).pendingWrap = [] ∧
    (mountStep (initWrap (some entry)) now).isRefreshing = false ∧
    (mountStep (initWrap (some entry)) now).timeoutPending =
      some (now + (REFRESH_INTERVAL_MS - (now - entry.fetchedAt))) ∧
    (mountStep (initWrap none) now).current = 1 ∧
    (mountStep (initWrap none) now).timeoutPending =
      some (now + REFRESH_INTERVAL_MS) := by
  refine ⟨?_, ?_, ?_, ?_, ?_, ?_, ?_, ?_, ?_, by rfl, by rfl⟩ <;>
    simp [mountStep, initWrap, beginFetch, exposedStats, hasData,
      activeStats, hfresh]

/-- Witness for C5 at the spec's warm-start scenario: entry fetched at 0,
mount at 120000 ms, TTL 300000 ms — served from cache with no fetch and
the one-shot armed for the remaining 180000 ms (firing at 300000). -/
theorem claim_C5_witness :
    (120000 - (0 : Nat)) < REFRESH_INTERVAL_MS ∧
    (mountStep (initWrap (some ⟨⟨5, false, none⟩, 0⟩)) 120000).timeoutPending =
      some 300000 ∧
    (mountStep (initWrap (some ⟨⟨5, false, none⟩, 0⟩)) 120000).current = 0 ∧
    (mountStep (initWrap (some ⟨⟨5, false, none⟩, 0⟩)) 120000).isFromCache = true ∧
    (exposedStats (mountStep (initWrap (some ⟨⟨5, false, none⟩, 0⟩)) 120000)).loading =
      false := by
  have h := claim_C5_warm_start ⟨⟨5, false, none⟩, 0⟩ 120000 (by decide)
  obtain ⟨-, h2, h3, -, -, h6, -, -, h9, -, -⟩ := h
  exact ⟨by decide, h9.trans (by rfl), h6, h2, h3⟩

/-- C6 counterexample: with a fresh cache the scheduler is Armed (one-shot
pending); a permitted manual refresh leaves that one-shot pending while
also installing an interval — two scheduled dispatch sources at once — and
when the one-shot later fires a second interval appears alongside the
leaked manual one. -/
theorem claim_C6_counterexample :
    (wrapRun (initWrap (some ⟨⟨5, false, none⟩, 0⟩))
      [.mount 120000, .force 130000]).timeoutPending = some 300000 ∧
    (wrapRun (initWrap (some ⟨⟨5, false, none⟩, 0⟩))
      [.mount 120000, .force 130000]).intervals.length = 1 ∧
    (wrapStep (wrapRun (initWrap (some ⟨⟨5, false, none⟩, 0⟩))
      [.mount 120000, .force 130000]) (.fireTimeout 300000)).intervals.length = 2 :=
  ⟨rfl, rfl, rfl⟩

/-- C6 amended: from the Periodic state (one-shot fired, the single live
interval held in `intervalRef`), a permitted manual refresh tears the
interval down and re-enters Periodic keyed off now — afterwards no
one-shot is pending and exactly one interval is live, firing a full TTL
after the manual refresh, whose fetch has been issued.  From the Armed
state the pending one-shot survives (see the counterexample). -/
theorem claim_C6_amended (st : WrapState) (i t now : Nat)
    (hT : st.timeoutPending = none)
    (hI : st.intervals = [(i, t)])
    (hR : st.intervalRef = some i)
    (hcool : canForceRefreshM st now = true) :
    (forceStep st now).timeoutPending = none ∧
    (forceStep st now).intervals = [(st.nextTimerId, now + REFRESH_INTERVAL_MS)] ∧
    (forceStep st now).intervalRef = some st.nextTimerId ∧
    (forceStep st now).current = st.current + 1 := by
  have hgo : forceStep st now = forceGo st now := by
    cases hl : st.lastFetchedAt with
    | none => simp [forceStep, hl]
    | some t0 =>
      simp only [canForceRefreshM, hl, decide_eq_true_eq] at hcool
      simp [forceStep, hl, Nat.not_lt.mpr hcool]
  rw [hgo]
  simp [forceGo, beginFetch, hT, hI, hR]

/-- Witness for C6 at a concrete Periodic state (interval 3 live, next
timer id 4): a manual refresh at 1000 ms leaves exactly the new interval
firing at 301000 ms and no pending one-shot. -/
theorem claim_C6_witness :
    canForceRefreshM exPeriodicState 1000 = true ∧
    (forceStep exPeriodicState 1000).intervals = [(4, 301000)] ∧
    (forceStep exPeriodicState 1000).timeoutPending = none ∧
    (forceStep exPeriodicState 1000).current = 2 := by
  have h := claim_C6_amended exPeriodicState 3 500 1000 rfl rfl rfl rfl
  exact ⟨rfl, h.2.1.trans (by rfl), h.1, h.2.2.2.trans (by rfl)⟩

/-- C7 counterexample: two forceRefresh calls 30 s apart — inside the 60 s
cooldown — while no fetch has completed yet both pass the guard (which
reads `lastFetchedAt`, still absent), so the pair issues two fetches and
the second call is not a no-op. -/
theorem claim_C7_counterexample :
    (wrapRun (initWrap none) [.mount 0, .force 5000]).current = 2 ∧
    (wrapRun (initWrap none) [.mount 0, .force 5000, .force 35000]).current = 3 :=
  ⟨rfl, rfl⟩

/-- C7 amended: the cooldown is measured from `lastFetchedAt`, written
only when a fetch completes successfully.  For `t1 ≤ tr ≤ t2` with
`t2 - t1` under the cooldown: when the first permitted forceRefresh at
`t1` has its fetch complete successfully at `tr`, the second call at `t2`
is an exact no-op and the pair issues exactly one fetch.  (With no
completed fetch, `lastFetchedAt` stays absent and the guard passes again —
see the counterexample.) -/
theorem claim_C7_amended (st : WrapState) (t1 tr t2 d : Nat)
    (h1 : t1 ≤ tr) (h2 : tr ≤ t2)
    (hwin : t2 - t1 < FORCE_REFRESH_COOLDOWN_MS)
    (hcool : canForceRefreshM st t1 = true) :
    forceStep (resolveFetch (forceStep st t1) (forceStep st t1).current
        (.success d) tr) t2 =
      resolveFetch (forceStep st t1) (forceStep st t1).current (.success d) tr ∧
    (resolveFetch (forceStep st t1) (forceStep st t1).current
        (.success d) tr).current = st.current + 1 := by
  clear h2
  have hgo : forceStep st t1 = forceGo st t1 := by
    cases hl : st.lastFetchedAt with
    | none => simp [forceStep, hl]
    | some t0 =>
      simp only [canForceRefreshM, hl, decide_eq_true_eq] at hcool
      simp [forceStep, hl, Nat.not_lt.mpr hcool]
  have hcur : (forceStep st t1).current = st.current + 1 := by
    rw [hgo]
    cases hr : st.intervalRef <;> simp [forceGo, beginFetch, hr]
  have hpend : (forceStep st t1).pendingWrap = (st.current + 1) :: st.pendingWrap := by
    rw [hgo]
    cases hr : st.intervalRef <;> simp [forceGo, beginFetch, hr]
  have hmem : (forceStep st t1).current ∈ (forceStep st t1).pendingWrap := by
    rw [hcur, hpend]
    exact List.mem_cons_self _ _
  have hB : (resolveFetch (forceStep st t1) (forceStep st t1).current
        (.success d) tr).lastFetchedAt = some tr ∧
      (resolveFetch (forceStep st t1) (forceStep st t1).current
        (.success d) tr).current = (forceStep st t1).current := by
    simp [resolveFetch, hmem]
  have hguard : t2 - tr < FORCE_REFRESH_COOLDOWN_MS :=
    lt_of_le_of_lt (Nat.sub_le_sub_left h1 t2) hwin
  obtain ⟨hB1, hB2⟩ := hB
  set stB := resolveFetch (forceStep st t1) (forceStep st t1).current
    (.success d) tr with hstB
  refine ⟨?_, hB2.trans hcur⟩
  simp [forceStep, hB1, hguard]

/-- Witness for C7: from a pristine state, a force at 0 ms whose fetch
succeeds at 10 ms makes the second force at 30000 ms an exact no-op after
exactly one issued fetch. -/
theorem claim_C7_witness :
    forceStep (resolveFetch (forceStep (initWrap none) 0)
        (forceStep (initWrap none) 0).current (.success 7) 10) 30000 =
      resolveFetch (forceStep (initWrap none) 0)
        (forceStep (initWrap none) 0).current (.success 7) 10 ∧
    (resolveFetch (forceStep (initWrap none) 0)
        (forceStep (initWrap none) 0).current (.success 7) 10).current = 1 := by
  have h := claim_C7_amended (initWrap none) 0 10 30000 7 (by decide) (by decide)
    (by decide) rfl
  exact ⟨h.1, h.2⟩

end TUIkit
